import Mathlib

/-!
Verification development for the financial impact pipeline of the
`cyberimpact` backend (`services/financial/` in the Python source).

Shallow embedding conventions:
* Python `str` is Lean `String`; the case/strip helpers below mirror the
  Python string methods on the ASCII inputs the pipeline works with.
* Python `float` is modelled as `ℚ` (exact rational arithmetic); Python's
  `round(x, 2)` (round-half-to-even) is modelled by `round2`.
* A Python dict field that may be absent is an `Option` field; `d.get(k, v)`
  becomes `field.getD v`.
* Fallible operations return `Option`; functions whose bodies are pure
  string prose (markdown rendering, executive summaries, reasoning strings)
  are not modelled, as no claim mentions their content.
-/

/-! ## Python string primitives -/

/-- Boolean prefix test on character lists. -/
def listIsPrefixOf : List Char → List Char → Bool
  | [], _ => true
  | _ :: _, [] => false
  | a :: as, b :: bs => a == b && listIsPrefixOf as bs

/-- Boolean substring test on character lists (`needle` occurs in the list). -/
def listContains (needle : List Char) : List Char → Bool
  | [] => needle.isEmpty
  | c :: rest => listIsPrefixOf needle (c :: rest) || listContains needle rest

/-- Python `needle in hay` on strings. -/
def pyIn (needle hay : String) : Bool := listContains needle.toList hay.toList

/-- Python `str.upper()` (ASCII). -/
def pyUpper (s : String) : String := String.mk (s.toList.map Char.toUpper)

/-- Python `str.lower()` (ASCII). -/
def pyLower (s : String) : String := String.mk (s.toList.map Char.toLower)

/-- Python `str.strip()`: drop leading and trailing whitespace. -/
def pyStrip (s : String) : String :=
  String.mk (((s.toList.dropWhile Char.isWhitespace).reverse.dropWhile
    Char.isWhitespace).reverse)

/-- Python `str.replace(pat, rep)` on character lists, non-overlapping,
left to right.  Both call sites in the source pass a non-empty pattern. -/
def pyReplaceList (pat rep : List Char) : List Char → List Char
  | [] => []
  | c :: rest =>
    if h : listIsPrefixOf pat (c :: rest) ∧ pat ≠ [] then
      rep ++ pyReplaceList pat rep ((c :: rest).drop pat.length)
    else
      c :: pyReplaceList pat rep rest
termination_by l => l.length
decreasing_by
  · obtain ⟨-, hp⟩ := h
    cases pat with
    | nil => exact absurd rfl hp
    | cons p ps =>
      simp only [List.length_drop, List.length_cons]
      omega
  · simp

/-- Python `str.replace(pat, rep)` on strings. -/
def pyReplace (s pat rep : String) : String :=
  String.mk (pyReplaceList pat.toList rep.toList s.toList)

/-- Python `str.title()`: a cased character starts upper-case when the
previous character is not alphabetic, and is lower-cased otherwise. -/
def pyTitle (s : String) : String :=
  String.mk (s.toList.foldl
    (fun (acc : List Char × Bool) c =>
      if c.isAlpha then
        (acc.1 ++ [if acc.2 then c.toLower else c.toUpper], true)
      else
        (acc.1 ++ [c], false))
    ([], false)).1

/-! ## Python `round(x, 2)` on the rational model -/

/-- Python `round` to the nearest integer, halves to even (banker's
rounding), on the exact rational model of `float`. -/
def pyRoundHalfEven (q : ℚ) : ℤ :=
  let f := ⌊q⌋
  let r := q - f
  if r < 1/2 then f
  else if r > 1/2 then f + 1
  else if f % 2 = 0 then f else f + 1

/-- Python `round(x, 2)`. -/
def round2 (q : ℚ) : ℚ := (pyRoundHalfEven (q * 100) : ℚ) / 100

/-! ## `financial_impact_service.py` -/

/-- Enum `SeverityLevel`: severity levels with numerical weights. -/
inductive SeverityLevel where
  | CRITICAL | HIGH | MEDIUM | LOW | INFO | UNKNOWN
deriving DecidableEq

/-- Numerical value of a `SeverityLevel` member. -/
def SeverityLevel.value : SeverityLevel → Nat
  | .CRITICAL => 10
  | .HIGH => 7
  | .MEDIUM => 4
  | .LOW => 2
  | .INFO => 1
  | .UNKNOWN => 0

/-- Function `get_severity_weight`: convert a severity string to a numerical weight. -/
def get_severity_weight (severity : String) : Nat :=
  let severity_normalized := pyStrip (pyUpper severity)
  if pyIn "CRITICAL" severity_normalized then SeverityLevel.CRITICAL.value
  else if pyIn "HIGH" severity_normalized then SeverityLevel.HIGH.value
  else if pyIn "MEDIUM" severity_normalized || pyIn "MODERATE" severity_normalized then
    SeverityLevel.MEDIUM.value
  else if pyIn "LOW" severity_normalized || pyIn "WARNING" severity_normalized then
    SeverityLevel.LOW.value
  else if pyIn "INFO" severity_normalized then SeverityLevel.INFO.value
  else SeverityLevel.UNKNOWN.value

/-- Function `calculate_direct_loss`: direct loss from downtime. -/
def calculate_direct_loss (hourly_cost rto_hours : ℚ) : ℚ :=
  hourly_cost * rto_hours

/-- Result dictionary of `calculate_total_impact`. -/
structure TotalImpact where
  direct_loss : ℚ
  indirect_loss : ℚ
  breach_penalty : ℚ
  total_impact : ℚ
deriving DecidableEq

/-- Function `calculate_total_impact`: total financial impact with the 4%/96% split.
Python defaults: `has_pii_breach=False`, `secondary_loss=1000000.0`. -/
def calculate_total_impact (direct_loss : ℚ) (has_pii_breach : Bool)
    (secondary_loss : ℚ) : TotalImpact :=
  let total_from_downtime := direct_loss / 0.04
  let indirect_loss := total_from_downtime - direct_loss
  let breach_penalty := if has_pii_breach then secondary_loss else 0
  let total_impact := direct_loss + indirect_loss + breach_penalty
  { direct_loss := round2 direct_loss
    indirect_loss := round2 indirect_loss
    breach_penalty := round2 breach_penalty
    total_impact := round2 total_impact }

/-- Result dictionary of `calculate_rosi`. -/
structure RosiResult where
  fix_cost : ℚ
  risk_reduction : ℚ
  net_benefit : ℚ
  rosi_percentage : ℚ
  recommendation : String
deriving DecidableEq

/-- Function `calculate_rosi`: return on security investment.
Python default: `fix_cost=5000.0`. -/
def calculate_rosi (total_risk fix_cost : ℚ) : RosiResult :=
  let risk_reduction := total_risk
  let net_benefit := risk_reduction - fix_cost
  let rosi_percentage := if fix_cost > 0 then net_benefit / fix_cost * 100 else 0
  let recommendation :=
    if rosi_percentage > 10000 then "CRITICAL INVESTMENT - Immediate action required"
    else if rosi_percentage > 1000 then "HIGH PRIORITY - Strong financial justification"
    else if rosi_percentage > 100 then "RECOMMENDED - Positive return on investment"
    else if rosi_percentage > 0 then "CONSIDER - Marginal positive return"
    else "LOW PRIORITY - Cost exceeds immediate risk"
  { fix_cost := round2 fix_cost
    risk_reduction := round2 risk_reduction
    net_benefit := round2 net_benefit
    rosi_percentage := round2 rosi_percentage
    recommendation := recommendation }

/-- Function `estimate_rto_from_severity`: estimated RTO (hours) from severity and
asset criticality.  Python default: `asset_criticality="medium"`. -/
def estimate_rto_from_severity (severity asset_criticality : String) : ℚ :=
  let severity_weight := get_severity_weight severity
  let rto : ℚ :=
    if severity_weight ≥ SeverityLevel.CRITICAL.value then 24
    else if severity_weight ≥ SeverityLevel.HIGH.value then 72
    else if severity_weight ≥ SeverityLevel.MEDIUM.value then 168
    else 720
  let multiplier : ℚ :=
    let c := pyLower asset_criticality
    if c = "critical" then 0.5
    else if c = "high" then 0.75
    else if c = "medium" then 1.0
    else if c = "low" then 1.5
    else 1.0
  rto * multiplier

/-- Function `estimate_hourly_cost`: hourly downtime cost by asset type.
Python default: `asset_type="general"`. -/
def estimate_hourly_cost (asset_type : String) : ℚ :=
  let t := pyLower asset_type
  if t = "payment" then 50000
  else if t = "ecommerce" then 40000
  else if t = "api" then 25000
  else if t = "database" then 30000
  else if t = "authentication" then 35000
  else if t = "general" then 10000
  else 10000

/-! ## Data model

Vulnerabilities, assets and configuration are Python dicts in the source;
fields that the pipeline reads with `.get` are modelled as `Option` fields.
The opaque tabular payload of an asset document (`data`) is not modelled:
`_find_asset_by_id`, which scans it, enters the mapper only through the
`find` parameter below, and the asset record it returns already carries the
row data it extracted (`extracted_asset_name`, `extracted_financial_data`). -/

/-- A vulnerability finding (one element of a tool's `essential` list). -/
structure Vuln where
  file : Option String
  package : Option String
  message : Option String
  description : Option String
  severity : Option String
  source_tool : Option String
deriving DecidableEq

/-- An asset document as returned by `_find_asset_by_id`: the stored
`filename` plus the fields the resolver extracts from the matching row
(`extracted_financial_data` is a dict with optional `hourly_cost` and
`rto_hours` keys, modelled as two `Option` fields). -/
structure Asset where
  filename : Option String
  extracted_asset_name : Option String
  extracted_hourly_cost : Option ℚ
  extracted_rto_hours : Option ℚ
deriving DecidableEq

/-- The resolver `_find_asset_by_id`, abstracted: given an asset id and the
asset list it returns the matching (row-enriched) asset record, or `none`. -/
def AssetFinder : Type := String → List Asset → Option Asset

/-- The `tier_config` dictionary; `none` models an absent key
(each read in the source supplies a default via `.get`). -/
structure TierConfig where
  use_hard_path_rules : Option Bool
  use_hard_rules : Option Bool
  use_keyword_matching : Option Bool
  use_ai_fallback : Option Bool
deriving DecidableEq

/-- The `path_rules` dictionary: an optional `rules` key holding
category → (path substring → asset id), dicts as insertion-ordered
association lists. -/
structure PathRulesConfig where
  rules : Option (List (String × List (String × String)))
deriving DecidableEq

/-- The `keyword_rules` dictionary: optional `mappings` and `rules` keys
holding asset id → keyword list. -/
structure KeywordRulesConfig where
  mappings : Option (List (String × List String))
  rules : Option (List (String × List String))
deriving DecidableEq

/-- The full rule configuration (`asset_mapping_rules.json`). -/
structure MapperRules where
  path_rules : PathRulesConfig
  keyword_rules : KeywordRulesConfig
  tier_config : TierConfig
deriving DecidableEq

/-- Mapping metadata produced by a successful tier (the prose
`match_reason` string and per-tier extras are not modelled). -/
structure MapMetadata where
  tier : String
  confidence : Nat
  asset_id : String
deriving DecidableEq

/-! ## `rule_based_mapper.py` -/

/-- Method `RuleBasedMapper._get_default_rules`: the fallback rule set used when
the configuration file is missing or malformed. -/
def default_rules : MapperRules :=
  { path_rules := { rules := some [] }
    keyword_rules := { mappings := none, rules := some [] }
    tier_config :=
      { use_hard_path_rules := none
        use_hard_rules := some true
        use_keyword_matching := some true
        use_ai_fallback := some true } }

/-- Outcome of reading and JSON-parsing the rule-configuration file. -/
inductive RulesLoadResult where
  | ok (rules : MapperRules)
  | fileNotFound
  | parseError
deriving DecidableEq

/-- Method `RuleBasedMapper._load_rules`: a successfully parsed file yields its
rules; a missing file or a JSON parse error falls back to the defaults
(the exception is caught, never propagated). -/
def load_rules : RulesLoadResult → MapperRules
  | .ok rules => rules
  | .fileNotFound => default_rules
  | .parseError => default_rules

/-- Python `dict.update`: keys already present keep their position and take
the new value; new keys are appended in order. -/
def updateAssoc (base upd : List (String × String)) : List (String × String) :=
  upd.foldl
    (fun acc kv =>
      if acc.any (fun p => p.1 = kv.1) then
        acc.map (fun p => if p.1 = kv.1 then (p.1, kv.2) else p)
      else
        acc ++ [kv])
    base

/-- Flattening of the nested path-rule categories into one
(path substring → asset id) table, as in `map_with_hard_rules`. -/
def flattenPathRules (nested : List (String × List (String × String))) :
    List (String × String) :=
  nested.foldl (fun flat cat => updateAssoc flat cat.2) []

/-- The rule loop of `map_with_hard_rules`: first rule whose (lower-cased)
substring occurs in the file path and whose asset id resolves wins, with
confidence 100; a rule whose asset id does not resolve is skipped. -/
def firstPathRuleMatch (find : AssetFinder) (file_path : String)
    (assets : List Asset) : List (String × String) → Option (Asset × MapMetadata)
  | [] => none
  | (rule_path, asset_id) :: rest =>
    if pyIn (pyLower rule_path) file_path then
      match find asset_id assets with
      | some matched_asset =>
        some (matched_asset,
          { tier := "hard_rules", confidence := 100, asset_id := asset_id })
      | none => firstPathRuleMatch find file_path assets rest
    else firstPathRuleMatch find file_path assets rest

/-- Method `RuleBasedMapper.map_with_hard_rules` (Tier 1). -/
def map_with_hard_rules (rules : MapperRules) (find : AssetFinder)
    (vulnerability : Vuln) (assets : List Asset) :
    Option (Asset × MapMetadata) :=
  let tier_config := rules.tier_config
  if !(tier_config.use_hard_path_rules.getD
        (tier_config.use_hard_rules.getD true)) then none
  else
    let file_path := pyLower (vulnerability.file.getD "")
    if file_path = "" then none
    else
      match rules.path_rules.rules with
      | none => none
      | some nested_rules =>
        firstPathRuleMatch find file_path assets (flattenPathRules nested_rules)

/-- The search text of `map_with_keywords`: space-joined `file`, `package`,
`message`, `description`, lower-cased. -/
def vulnSearchText (vulnerability : Vuln) : String :=
  pyLower (String.intercalate " "
    [vulnerability.file.getD "", vulnerability.package.getD "",
     vulnerability.message.getD "", vulnerability.description.getD ""])

/-- Number of keywords of one mapping entry occurring (lower-cased) as
substrings of the search text. -/
def countKeywordMatches (keywords : List String) (vuln_text : String) : Nat :=
  (keywords.filter (fun keyword => pyIn (pyLower keyword) vuln_text)).length

/-- The `asset_scores` dict: asset ids with a positive keyword score, in
configuration order. -/
def positiveScores (keyword_mappings : List (String × List String))
    (vuln_text : String) : List (String × Nat) :=
  (keyword_mappings.map
    (fun m => (m.1, countKeywordMatches m.2 vuln_text))).filter
    (fun p => 0 < p.2)

/-- Python `max(asset_scores, key=asset_scores.get)`: the first entry
attaining the maximal score (later entries replace only on a strictly
greater score). -/
def pickBest (s : String × Nat) (rest : List (String × Nat)) : String × Nat :=
  rest.foldl (fun best p => if best.2 < p.2 then p else best) s

/-- Method `RuleBasedMapper.map_with_keywords` (Tier 2). -/
def map_with_keywords (rules : MapperRules) (find : AssetFinder)
    (vulnerability : Vuln) (assets : List Asset) :
    Option (Asset × MapMetadata) :=
  if !(rules.tier_config.use_keyword_matching.getD true) then none
  else
    let vuln_text := vulnSearchText vulnerability
    if pyStrip vuln_text = "" then none
    else
      let keyword_mappings :=
        rules.keyword_rules.mappings.getD (rules.keyword_rules.rules.getD [])
      match positiveScores keyword_mappings vuln_text with
      | [] => none
      | s :: rest =>
        let best := pickBest s rest
        match find best.1 assets with
        | some matched_asset =>
          some (matched_asset,
            { tier := "keywords"
              confidence := min (60 + best.2 * 10) 90
              asset_id := best.1 })
        | none => none

/-! ## `asset_mapper_service.py` -/

/-- Result of the hybrid mapping: the matched asset enriched with the
`mapping_confidence` and `mapping_tier` keys (`mapping_reasoning` and
`business_impact` are prose and not modelled). -/
structure MappedAsset where
  asset : Asset
  mapping_confidence : Nat
  mapping_tier : String
deriving DecidableEq

/-- The Tier-3 call `map_vulnerability_to_asset_with_ai`, abstracted: the
AI either produces a matched asset with a confidence (already validated
against the asset list by the caller-side parsing code), or no match; the
`try/except` around the call turns every failure into `none`. -/
def AiOracle : Type := Vuln → List Asset → Option (Asset × Nat)

/-- Function `map_vulnerability_hybrid`: Tier 1 (hard path rules), then Tier 2
(keyword matching), then Tier 3 (AI, only when `use_ai_fallback` is
enabled, defaulting to enabled when the key is absent). -/
def map_vulnerability_hybrid (rules : MapperRules) (find : AssetFinder)
    (ai : AiOracle) (vulnerability : Vuln) (assets : List Asset) :
    Option MappedAsset :=
  if assets.isEmpty then none
  else
    match map_with_hard_rules rules find vulnerability assets with
    | some (matched_asset, metadata) =>
      some { asset := matched_asset
             mapping_confidence := metadata.confidence
             mapping_tier := metadata.tier }
    | none =>
      match map_with_keywords rules find vulnerability assets with
      | some (matched_asset, metadata) =>
        some { asset := matched_asset
               mapping_confidence := metadata.confidence
               mapping_tier := metadata.tier }
      | none =>
        if rules.tier_config.use_ai_fallback.getD true then
          match ai vulnerability assets with
          | some (ai_asset, confidence) =>
            some { asset := ai_asset
                   mapping_confidence := confidence
                   mapping_tier := "ai" }
          | none => none
        else none

/-- The financial-parameter dictionary assembled by
`fetch_financial_parameters` (or any dict passed for it; `Option` models
possibly-absent keys read with `.get`). -/
structure FinancialParams where
  default_hourly_cost : Option ℚ
  default_rto_hours : Option ℚ
  has_pii_data : Option Bool
deriving DecidableEq

/-- The `financial_context` dictionary attached by enrichment. -/
structure FinancialContext where
  hourly_cost : ℚ
  rto_hours : ℚ
  has_pii_data : Bool
  asset_criticality : String
deriving DecidableEq

/-- The `matched_asset` sub-dictionary attached by enrichment (`id`,
`reasoning`, `business_impact` and the raw `data` payload are not
modelled). -/
structure MatchedAssetInfo where
  filename : Option String
  asset_name : String
  confidence : Nat
  tier : String
deriving DecidableEq

/-- A vulnerability enriched with `matched_asset` and `financial_context`. -/
structure EnrichedVuln where
  vuln : Vuln
  matched_asset : Option MatchedAssetInfo
  financial_context : FinancialContext
deriving DecidableEq

/-- Function `enrich_vulnerability_with_asset`: attach business context from the
matched asset, or defaults when unmatched. -/
def enrich_vulnerability_with_asset (vulnerability : Vuln)
    (asset : Option MappedAsset) (financial_params : FinancialParams) :
    EnrichedVuln :=
  match asset with
  | some mapped =>
    let a := mapped.asset
    let asset_name := a.extracted_asset_name.getD (a.filename.getD "Unknown Asset")
    { vuln := vulnerability
      matched_asset := some
        { filename := a.filename
          asset_name := asset_name
          confidence := mapped.mapping_confidence
          tier := mapped.mapping_tier }
      financial_context :=
        { hourly_cost :=
            a.extracted_hourly_cost.getD
              (financial_params.default_hourly_cost.getD 10000)
          rto_hours :=
            a.extracted_rto_hours.getD
              (financial_params.default_rto_hours.getD 24)
          has_pii_data := financial_params.has_pii_data.getD false
          asset_criticality := "medium" } }
  | none =>
    { vuln := vulnerability
      matched_asset := none
      financial_context :=
        { hourly_cost := financial_params.default_hourly_cost.getD 10000
          rto_hours := financial_params.default_rto_hours.getD 24
          has_pii_data := false
          asset_criticality := "low" } }

/-- Function `map_all_vulnerabilities`, with the database fetches
(`fetch_user_assets`, `fetch_financial_parameters`) supplied as arguments. -/
def map_all_vulnerabilities (rules : MapperRules) (find : AssetFinder)
    (ai : AiOracle) (assets : List Asset) (financial_params : FinancialParams)
    (vulnerabilities : List Vuln) : List EnrichedVuln :=
  vulnerabilities.map (fun vuln =>
    enrich_vulnerability_with_asset vuln
      (map_vulnerability_hybrid rules find ai vuln assets) financial_params)

/-! ## `risk_ticket_generator.py` -/

/-- The `financial_exposure` section of a risk ticket. -/
structure FinancialExposure where
  total : ℚ
  direct_loss : ℚ
  indirect_loss : ℚ
  breach_penalty : ℚ
deriving DecidableEq

/-- A financial risk ticket.  The prose sections (`business_impact`,
`executive_summary`, `technical_details`) are not modelled. -/
structure Ticket where
  ticket_number : Nat
  severity : String
  severity_emoji : String
  severity_weight : Nat
  asset_name : String
  asset_confidence : Nat
  financial_exposure : FinancialExposure
  rosi : RosiResult
  matched_asset_details : Option MatchedAssetInfo
deriving DecidableEq

/-- The `severity_emoji` lookup of `generate_risk_ticket`. -/
def severityEmoji (severity : String) : String :=
  let s := pyUpper severity
  if s = "CRITICAL" then "🔴"
  else if s = "HIGH" then "🟠"
  else if s = "MEDIUM" then "🟡"
  else if s = "LOW" then "🟢"
  else "⚪"

/-- Function `generate_risk_ticket`: build one financial risk ticket.  As at its
only call site, `vulnerability` and `enriched_data` are the same enriched
record, matching `generate_risk_ticket(idx, vuln, vuln)`. -/
def generate_risk_ticket (ticket_number : Nat) (vulnerability : EnrichedVuln)
    (enriched_data : EnrichedVuln) : Ticket :=
  let matched_asset := vulnerability.matched_asset
  let financial_context := enriched_data.financial_context
  let severity := vulnerability.vuln.severity.getD "UNKNOWN"
  let asset_name :=
    match matched_asset with
    | some info =>
      let n := info.asset_name
      if pyIn ".xlsx" n || pyIn "_" n then
        pyTitle (pyReplace (pyReplace n ".xlsx" "") "_" " ")
      else n
    | none => "Unidentified System Component"
  let confidence :=
    match matched_asset with
    | some info => info.confidence
    | none => 0
  let hourly_cost := financial_context.hourly_cost
  let rto_hours₀ := financial_context.rto_hours
  let has_pii := financial_context.has_pii_data
  let rto_hours :=
    if rto_hours₀ = 24 then
      estimate_rto_from_severity severity financial_context.asset_criticality
    else rto_hours₀
  let direct_loss := calculate_direct_loss hourly_cost rto_hours
  let impact_breakdown := calculate_total_impact direct_loss has_pii 1000000
  let total_exposure := impact_breakdown.total_impact
  let rosi_data := calculate_rosi total_exposure 5000
  { ticket_number := ticket_number
    severity := severity
    severity_emoji := severityEmoji severity
    severity_weight := get_severity_weight severity
    asset_name := asset_name
    asset_confidence := confidence
    financial_exposure :=
      { total := total_exposure
        direct_loss := impact_breakdown.direct_loss
        indirect_loss := impact_breakdown.indirect_loss
        breach_penalty := impact_breakdown.breach_penalty }
    rosi := rosi_data
    matched_asset_details := matched_asset }

/-- One insertion step of a stable descending sort: `x` is placed before
the first already-sorted element it compares greater-or-equal to, so that
elements comparing equal keep their original relative order — the
behaviour of Python's stable `list.sort(..., reverse=True)`. -/
def insertDescBy (ge : α → α → Bool) (x : α) : List α → List α
  | [] => [x]
  | y :: ys => if ge x y then x :: y :: ys else y :: insertDescBy ge x ys

/-- Stable descending insertion sort, modelling Python's stable
`list.sort(key=..., reverse=True)` / `sorted(..., reverse=True)`;
`ge a b` reads "the key of `a` is ≥ the key of `b`". -/
def stableSortDesc (ge : α → α → Bool) : List α → List α
  | [] => []
  | x :: xs => insertDescBy ge x (stableSortDesc ge xs)

/-- Comparison used by `sort_vulnerabilities_by_severity`. -/
def vulnSortGe (a b : Vuln) : Bool :=
  decide (get_severity_weight (b.severity.getD "") ≤
    get_severity_weight (a.severity.getD ""))

/-- Comparison used by the final ticket sort: descending lexicographically
by `(severity_weight, financial_exposure.total)`. -/
def ticketSortGe (a b : Ticket) : Bool :=
  decide (b.severity_weight < a.severity_weight) ||
    (decide (a.severity_weight = b.severity_weight) &&
      decide (b.financial_exposure.total ≤ a.financial_exposure.total))

/-- The generation loop of `generate_all_risk_tickets`: one ticket per
enriched vulnerability, numbered consecutively from `n`
(`enumerate(..., start=1)` at the call site). -/
def ticketsFrom (n : Nat) : List EnrichedVuln → List Ticket
  | [] => []
  | e :: es => generate_risk_ticket n e e :: ticketsFrom (n + 1) es

/-- The renumbering loop of `generate_all_risk_tickets`: the ticket at
position `i` (0-based) receives ticket number `n + i`. -/
def renumberFrom (n : Nat) : List Ticket → List Ticket
  | [] => []
  | t :: ts => { t with ticket_number := n } :: renumberFrom (n + 1) ts

/-- Function `generate_all_risk_tickets`: generate in input order, sort descending
by `(severity_weight, financial_exposure.total)`, renumber from 1. -/
def generate_all_risk_tickets (enriched_vulnerabilities : List EnrichedVuln) :
    List Ticket :=
  renumberFrom 1 (stableSortDesc ticketSortGe (ticketsFrom 1 enriched_vulnerabilities))

/-! ## `financial_pipeline.py` -/

/-- One tool's scan result: the `essential` findings list.  `none` models
a missing `essential` key or a non-list value (both are skipped by the
`isinstance` guard in the source). -/
structure ToolResult where
  essential : Option (List Vuln)
deriving DecidableEq

/-- Function `extract_all_vulnerabilities`: flatten all tools' essential findings,
tagging each finding with its source tool. -/
def extract_all_vulnerabilities (scan_results : List (String × ToolResult)) :
    List Vuln :=
  scan_results.foldl
    (fun acc tool_result =>
      match tool_result.2.essential with
      | some findings =>
        acc ++ findings.map (fun finding =>
          { finding with source_tool := some tool_result.1 })
      | none => acc)
    []

/-- Function `sort_vulnerabilities_by_severity`: stable descending sort by severity
weight. -/
def sort_vulnerabilities_by_severity (vulnerabilities : List Vuln) : List Vuln :=
  stableSortDesc vulnSortGe vulnerabilities

/-- The summary dictionary of `calculate_summary_statistics`.  The two
branches of the source return dictionaries with different key sets:
`total_rosi` appears only in the empty-input dictionary, `average_rosi`
and `net_benefit` only in the non-empty one — hence the `Option` fields
(`none` = key absent). -/
structure Summary where
  total_vulnerabilities : Nat
  total_financial_exposure : ℚ
  severity_breakdown : List (String × Nat)
  total_fix_cost : ℚ
  total_rosi : Option ℚ
  average_rosi : Option ℚ
  net_benefit : Option ℚ
  critical_count : Nat
  high_count : Nat
  medium_count : Nat
  low_count : Nat
deriving DecidableEq

/-- One step of the severity-count accumulation (a Python dict update
`d[k] = d.get(k, 0) + 1`, insertion-ordered). -/
def bumpCount : List (String × Nat) → String → List (String × Nat)
  | [], k => [(k, 1)]
  | (k', n) :: rest, k =>
    if k' = k then (k', n + 1) :: rest else (k', n) :: bumpCount rest k

/-- The `severity_counts` dict of `calculate_summary_statistics`. -/
def severityCounts (risk_tickets : List Ticket) : List (String × Nat) :=
  risk_tickets.foldl (fun acc t => bumpCount acc (pyUpper t.severity)) []

/-- Python `severity_counts.get(k, 0)`. -/
def lookupCount (counts : List (String × Nat)) (k : String) : Nat :=
  ((counts.find? (fun p => decide (p.1 = k))).map (fun p => p.2)).getD 0

/-- Function `calculate_summary_statistics`: executive summary statistics. -/
def calculate_summary_statistics (risk_tickets : List Ticket) : Summary :=
  if risk_tickets.isEmpty then
    { total_vulnerabilities := 0
      total_financial_exposure := 0
      severity_breakdown := []
      total_fix_cost := 0
      total_rosi := some 0
      average_rosi := none
      net_benefit := none
      critical_count := 0
      high_count := 0
      medium_count := 0
      low_count := 0 }
  else
    let total_exposure := (risk_tickets.map (fun t => t.financial_exposure.total)).sum
    let total_fix_cost := (risk_tickets.map (fun t => t.rosi.fix_cost)).sum
    let avg_rosi :=
      (risk_tickets.map (fun t => t.rosi.rosi_percentage)).sum /
        (risk_tickets.length : ℚ)
    let severity_counts := severityCounts risk_tickets
    { total_vulnerabilities := risk_tickets.length
      total_financial_exposure := round2 total_exposure
      severity_breakdown := severity_counts
      total_fix_cost := round2 total_fix_cost
      total_rosi := none
      average_rosi := some (round2 avg_rosi)
      net_benefit := some (round2 (total_exposure - total_fix_cost))
      critical_count := lookupCount severity_counts "CRITICAL"
      high_count := lookupCount severity_counts "HIGH"
      medium_count := lookupCount severity_counts "MEDIUM"
      low_count := lookupCount severity_counts "LOW" }

/-- The result dictionary of `process_scan_results`.  The
`enriched_vulnerabilities` key is absent from the empty-input result. -/
structure PipelineResult where
  summary : Summary
  risk_tickets : List Ticket
  vulnerabilities_processed : Nat
  assets_mapped : Nat
  enriched_vulnerabilities : Option (List EnrichedVuln)
deriving DecidableEq

/-- Function `process_scan_results`: the pipeline entry point, with the database
fetches and the AI call supplied as arguments. -/
def process_scan_results (rules : MapperRules) (find : AssetFinder)
    (ai : AiOracle) (assets : List Asset) (financial_params : FinancialParams)
    (scan_results : List (String × ToolResult)) : PipelineResult :=
  let all_vulnerabilities := extract_all_vulnerabilities scan_results
  if all_vulnerabilities.isEmpty then
    { summary := calculate_summary_statistics []
      risk_tickets := []
      vulnerabilities_processed := 0
      assets_mapped := 0
      enriched_vulnerabilities := none }
  else
    let sorted_vulnerabilities := sort_vulnerabilities_by_severity all_vulnerabilities
    let enriched_vulnerabilities :=
      map_all_vulnerabilities rules find ai assets financial_params
        sorted_vulnerabilities
    let risk_tickets := generate_all_risk_tickets enriched_vulnerabilities
    { summary := calculate_summary_statistics risk_tickets
      risk_tickets := risk_tickets
      vulnerabilities_processed := all_vulnerabilities.length
      assets_mapped :=
        (enriched_vulnerabilities.filter (fun e => e.matched_asset.isSome)).length
      enriched_vulnerabilities := some enriched_vulnerabilities }

/-! ## Claims -/

/-- Claim C1: for every input string, `get_severity_weight` decides by
case-insensitive substring matching in the fixed precedence order
CRITICAL(10), HIGH(7), MEDIUM-or-MODERATE(4), LOW-or-WARNING(2), INFO(1),
and a string matching none of these yields 0 rather than an error; the
listed concrete values are strictly decreasing and
`get_severity_weight "Critical Issue" = 10`. -/
theorem C1_get_severity_weight :
    (∀ s : String,
      (pyIn "CRITICAL" (pyStrip (pyUpper s)) = true →
        get_severity_weight s = 10) ∧
      (pyIn "CRITICAL" (pyStrip (pyUpper s)) = false →
        pyIn "HIGH" (pyStrip (pyUpper s)) = true →
        get_severity_weight s = 7) ∧
      (pyIn "CRITICAL" (pyStrip (pyUpper s)) = false →
        pyIn "HIGH" (pyStrip (pyUpper s)) = false →
        (pyIn "MEDIUM" (pyStrip (pyUpper s)) ||
          pyIn "MODERATE" (pyStrip (pyUpper s))) = true →
        get_severity_weight s = 4) ∧
      (pyIn "CRITICAL" (pyStrip (pyUpper s)) = false →
        pyIn "HIGH" (pyStrip (pyUpper s)) = false →
        (pyIn "MEDIUM" (pyStrip (pyUpper s)) ||
          pyIn "MODERATE" (pyStrip (pyUpper s))) = false →
        (pyIn "LOW" (pyStrip (pyUpper s)) ||
          pyIn "WARNING" (pyStrip (pyUpper s))) = true →
        get_severity_weight s = 2) ∧
      (pyIn "CRITICAL" (pyStrip (pyUpper s)) = false →
        pyIn "HIGH" (pyStrip (pyUpper s)) = false →
        (pyIn "MEDIUM" (pyStrip (pyUpper s)) ||
          pyIn "MODERATE" (pyStrip (pyUpper s))) = false →
        (pyIn "LOW" (pyStrip (pyUpper s)) ||
          pyIn "WARNING" (pyStrip (pyUpper s))) = false →
        pyIn "INFO" (pyStrip (pyUpper s)) = true →
        get_severity_weight s = 1) ∧
      (pyIn "CRITICAL" (pyStrip (pyUpper s)) = false →
        pyIn "HIGH" (pyStrip (pyUpper s)) = false →
        (pyIn "MEDIUM" (pyStrip (pyUpper s)) ||
          pyIn "MODERATE" (pyStrip (pyUpper s))) = false →
        (pyIn "LOW" (pyStrip (pyUpper s)) ||
          pyIn "WARNING" (pyStrip (pyUpper s))) = false →
        pyIn "INFO" (pyStrip (pyUpper s)) = false →
        get_severity_weight s = 0)) ∧
    get_severity_weight "CRITICAL" > get_severity_weight "HIGH" ∧
    get_severity_weight "HIGH" > get_severity_weight "MEDIUM" ∧
    get_severity_weight "MEDIUM" > get_severity_weight "LOW" ∧
    get_severity_weight "LOW" > get_severity_weight "INFO" ∧
    get_severity_weight "INFO" > get_severity_weight "whatever" ∧
    get_severity_weight "Critical Issue" = 10 := by
  refine ⟨fun s => ⟨?_, ?_, ?_, ?_, ?_, ?_⟩, by decide, by decide, by decide,
    by decide, by decide, by decide⟩
  · intro h1
    simp [get_severity_weight, SeverityLevel.value, h1]
  · intro h1 h2
    simp [get_severity_weight, SeverityLevel.value, h1, h2]
  · intro h1 h2 h3
    simp [get_severity_weight, SeverityLevel.value, h1, h2, h3]
  · intro h1 h2 h3 h4
    simp [get_severity_weight, SeverityLevel.value, h1, h2, h3, h4]
  · intro h1 h2 h3 h4 h5
    simp [get_severity_weight, SeverityLevel.value, h1, h2, h3, h4, h5]
  · intro h1 h2 h3 h4 h5
    simp [get_severity_weight, SeverityLevel.value, h1, h2, h3, h4, h5]

/-- Witness for C1 at concrete inputs. -/
theorem C1_get_severity_weight_witness :
    get_severity_weight "Mixed Warning" = 2 ∧ get_severity_weight "whatever" = 0 := by
  refine ⟨?_, ?_⟩
  · exact (C1_get_severity_weight.1 "Mixed Warning").2.2.2.1
      (by decide) (by decide) (by decide) (by decide)
  · exact (C1_get_severity_weight.1 "whatever").2.2.2.2.2
      (by decide) (by decide) (by decide) (by decide) (by decide)

/-- Claim C2: `calculate_total_impact d b s` returns `direct_loss = d`,
`indirect_loss = d/0.04 - d`, `breach_penalty = s` if `b` else `0`, and
`total_impact` their sum, each rounded to 2 decimals; and
`calculate_total_impact 40000 true 1000000` is exactly
(40000, 960000, 1000000, 2000000). -/
theorem C2_calculate_total_impact :
    (∀ (d : ℚ) (b : Bool) (s : ℚ),
      calculate_total_impact d b s =
        { direct_loss := round2 d
          indirect_loss := round2 (d / 0.04 - d)
          breach_penalty := round2 (if b then s else 0)
          total_impact := round2 (d + (d / 0.04 - d) + (if b then s else 0)) }) ∧
    calculate_total_impact 40000 true 1000000 =
      { direct_loss := 40000
        indirect_loss := 960000
        breach_penalty := 1000000
        total_impact := 2000000 } := by
  refine ⟨fun d b s => rfl, ?_⟩
  norm_num [calculate_total_impact, round2, pyRoundHalfEven, TotalImpact.mk.injEq]

/-- Claim C3: `calculate_rosi r c` returns `net_benefit = r - c`,
`rosi_percentage = (r-c)/c*100` when `0 < c` and `0` when `c ≤ 0`, the
recommendation chosen by the stated thresholds on the (unrounded)
percentage, and `calculate_rosi 2000000 5000` is exactly
(5000, 2000000, 1995000, 39900, CRITICAL INVESTMENT). -/
theorem C3_calculate_rosi :
    (∀ (r c : ℚ),
      (calculate_rosi r c).net_benefit = round2 (r - c) ∧
      (0 < c → (calculate_rosi r c).rosi_percentage = round2 ((r - c) / c * 100)) ∧
      (c ≤ 0 → (calculate_rosi r c).rosi_percentage = 0) ∧
      (10000 < (if 0 < c then (r - c) / c * 100 else 0) →
        (calculate_rosi r c).recommendation =
          "CRITICAL INVESTMENT - Immediate action required") ∧
      ((if 0 < c then (r - c) / c * 100 else 0) ≤ 10000 →
        1000 < (if 0 < c then (r - c) / c * 100 else 0) →
        (calculate_rosi r c).recommendation =
          "HIGH PRIORITY - Strong financial justification") ∧
      ((if 0 < c then (r - c) / c * 100 else 0) ≤ 1000 →
        100 < (if 0 < c then (r - c) / c * 100 else 0) →
        (calculate_rosi r c).recommendation =
          "RECOMMENDED - Positive return on investment") ∧
      ((if 0 < c then (r - c) / c * 100 else 0) ≤ 100 →
        0 < (if 0 < c then (r - c) / c * 100 else 0) →
        (calculate_rosi r c).recommendation =
          "CONSIDER - Marginal positive return") ∧
      ((if 0 < c then (r - c) / c * 100 else 0) ≤ 0 →
        (calculate_rosi r c).recommendation =
          "LOW PRIORITY - Cost exceeds immediate risk")) ∧
    calculate_rosi 2000000 5000 =
      { fix_cost := 5000
        risk_reduction := 2000000
        net_benefit := 1995000
        rosi_percentage := 39900
        recommendation := "CRITICAL INVESTMENT - Immediate action required" } := by
  refine ⟨fun r c => ⟨rfl, ?_, ?_, ?_, ?_, ?_, ?_, ?_⟩, ?_⟩
  · intro h
    simp [calculate_rosi, h]
  · intro h
    norm_num [calculate_rosi, not_lt.mpr h, round2, pyRoundHalfEven]
  · intro h
    simp [calculate_rosi, h]
  · intro h1 h2
    simp [calculate_rosi, not_lt.mpr h1, h2]
  · intro h1 h2
    have g1 : ¬ (10000 : ℚ) < (if 0 < c then (r - c) / c * 100 else 0) :=
      not_lt.mpr (h1.trans (by norm_num))
    simp [calculate_rosi, g1, not_lt.mpr h1, h2]
  · intro h1 h2
    have g1 : ¬ (10000 : ℚ) < (if 0 < c then (r - c) / c * 100 else 0) :=
      not_lt.mpr (h1.trans (by norm_num))
    have g2 : ¬ (1000 : ℚ) < (if 0 < c then (r - c) / c * 100 else 0) :=
      not_lt.mpr (h1.trans (by norm_num))
    simp [calculate_rosi, g1, g2, not_lt.mpr h1, h2]
  · intro h
    have g1 : ¬ (10000 : ℚ) < (if 0 < c then (r - c) / c * 100 else 0) :=
      not_lt.mpr (h.trans (by norm_num))
    have g2 : ¬ (1000 : ℚ) < (if 0 < c then (r - c) / c * 100 else 0) :=
      not_lt.mpr (h.trans (by norm_num))
    have g3 : ¬ (100 : ℚ) < (if 0 < c then (r - c) / c * 100 else 0) :=
      not_lt.mpr (h.trans (by norm_num))
    simp [calculate_rosi, g1, g2, g3, not_lt.mpr h]
  · norm_num [calculate_rosi, round2, pyRoundHalfEven, RosiResult.mk.injEq]

/-- Witness for C3 at the concrete input of the claim. -/
theorem C3_calculate_rosi_witness :
    (calculate_rosi 2000000 5000).rosi_percentage =
      round2 ((2000000 - 5000) / 5000 * 100) ∧
    (calculate_rosi 2000000 5000).recommendation =
      "CRITICAL INVESTMENT - Immediate action required" := by
  refine ⟨(C3_calculate_rosi.1 2000000 5000).2.1 (by norm_num), ?_⟩
  exact (C3_calculate_rosi.1 2000000 5000).2.2.2.1 (by norm_num)

/-- Claim C4: the hybrid matcher tries tiers in fixed priority — a Tier 1
match is the result even when Tier 2 would match a different asset; Tier 2
decides only when Tier 1 returns none; the AI runs only when Tiers 1 and 2
both return none, and only if `use_ai_fallback` is enabled. -/
theorem C4_tier_precedence (rules : MapperRules) (find : AssetFinder)
    (ai : AiOracle) (vulnerability : Vuln) (assets : List Asset) :
    (∀ a md, assets.isEmpty = false →
      map_with_hard_rules rules find vulnerability assets = some (a, md) →
      map_vulnerability_hybrid rules find ai vulnerability assets =
        some { asset := a, mapping_confidence := md.confidence,
               mapping_tier := md.tier }) ∧
    (∀ a md a₂ md₂, assets.isEmpty = false →
      map_with_hard_rules rules find vulnerability assets = some (a, md) →
      map_with_keywords rules find vulnerability assets = some (a₂, md₂) →
      a₂ ≠ a →
      map_vulnerability_hybrid rules find ai vulnerability assets =
        some { asset := a, mapping_confidence := md.confidence,
               mapping_tier := md.tier }) ∧
    (∀ a md, assets.isEmpty = false →
      map_with_hard_rules rules find vulnerability assets = none →
      map_with_keywords rules find vulnerability assets = some (a, md) →
      map_vulnerability_hybrid rules find ai vulnerability assets =
        some { asset := a, mapping_confidence := md.confidence,
               mapping_tier := md.tier }) ∧
    (assets.isEmpty = false →
      map_with_hard_rules rules find vulnerability assets = none →
      map_with_keywords rules find vulnerability assets = none →
      map_vulnerability_hybrid rules find ai vulnerability assets =
        (if rules.tier_config.use_ai_fallback.getD true then
          match ai vulnerability assets with
          | some (ai_asset, confidence) =>
            some { asset := ai_asset, mapping_confidence := confidence,
                   mapping_tier := "ai" }
          | none => none
        else none)) := by
  refine ⟨?_, ?_, ?_, ?_⟩
  · intro a md h1 h2
    simp [map_vulnerability_hybrid, h1, h2]
  · intro a md a₂ md₂ h1 h2 _ _
    simp [map_vulnerability_hybrid, h1, h2]
  · intro a md h1 h2 h3
    simp [map_vulnerability_hybrid, h1, h2, h3]
  · intro h1 h2 h3
    simp [map_vulnerability_hybrid, h1, h2, h3]

/-- Witness for C4: a vulnerability whose file path matches a path rule for
one asset and whose text matches a keyword rule for a different asset is
mapped to the path rule's asset, with Tier 1 metadata. -/
theorem C4_tier_precedence_witness :
    map_vulnerability_hybrid
      { path_rules := { rules := some [("CORE", [("services/payments", "APP-001")])] }
        keyword_rules := { mappings := some [("APP-002", ["payment"])], rules := some [] }
        tier_config := { use_hard_path_rules := none, use_hard_rules := none,
                         use_keyword_matching := some true, use_ai_fallback := some true } }
      (fun asset_id assets =>
        if asset_id = "APP-001" then assets.head? else (assets.drop 1).head?)
      (fun _ _ => none)
      { file := some "services/payments/charge.py", package := none,
        message := some "payment overflow", description := none,
        severity := some "HIGH", source_tool := none }
      [{ filename := some "assets1", extracted_asset_name := none,
         extracted_hourly_cost := none, extracted_rto_hours := none },
       { filename := some "assets2", extracted_asset_name := none,
         extracted_hourly_cost := none, extracted_rto_hours := none }] =
      some { asset := { filename := some "assets1", extracted_asset_name := none,
                        extracted_hourly_cost := none, extracted_rto_hours := none }
             mapping_confidence := 100
             mapping_tier := "hard_rules" } := by
  exact (C4_tier_precedence _ _ _ _ _).2.1
    { filename := some "assets1", extracted_asset_name := none,
      extracted_hourly_cost := none, extracted_rto_hours := none }
    { tier := "hard_rules", confidence := 100, asset_id := "APP-001" }
    { filename := some "assets2", extracted_asset_name := none,
      extracted_hourly_cost := none, extracted_rto_hours := none }
    { tier := "keywords", confidence := 70, asset_id := "APP-002" }
    (by decide) (by decide) (by decide) (by decide)

/-! ## General lemmas about the sorting and numbering helpers -/

theorem insertDescBy_length (ge : α → α → Bool) (x : α) (l : List α) :
    (insertDescBy ge x l).length = l.length + 1 := by
  induction l with
  | nil => rfl
  | cons y ys ih => by_cases h : ge x y <;> simp [insertDescBy, h, ih]

theorem stableSortDesc_length (ge : α → α → Bool) (l : List α) :
    (stableSortDesc ge l).length = l.length := by
  induction l with
  | nil => rfl
  | cons x xs ih => simp [stableSortDesc, insertDescBy_length, ih]

theorem ticketsFrom_length (n : Nat) (evs : List EnrichedVuln) :
    (ticketsFrom n evs).length = evs.length := by
  induction evs generalizing n with
  | nil => rfl
  | cons e es ih => simp [ticketsFrom, ih]

theorem renumberFrom_length (n : Nat) (ts : List Ticket) :
    (renumberFrom n ts).length = ts.length := by
  induction ts generalizing n with
  | nil => rfl
  | cons t ts ih => simp [renumberFrom, ih]

theorem generate_all_risk_tickets_length (evs : List EnrichedVuln) :
    (generate_all_risk_tickets evs).length = evs.length := by
  simp [generate_all_risk_tickets, renumberFrom_length, stableSortDesc_length,
    ticketsFrom_length]

theorem summary_total_vulnerabilities (ts : List Ticket) :
    (calculate_summary_statistics ts).total_vulnerabilities = ts.length := by
  match ts with
  | [] => rfl
  | t :: ts' => rfl

theorem process_scan_results_counts (rules : MapperRules) (find : AssetFinder)
    (ai : AiOracle) (assets : List Asset) (fp : FinancialParams)
    (scan_results : List (String × ToolResult)) :
    (process_scan_results rules find ai assets fp scan_results).summary.total_vulnerabilities =
      (extract_all_vulnerabilities scan_results).length ∧
    (process_scan_results rules find ai assets fp scan_results).risk_tickets.length =
      (extract_all_vulnerabilities scan_results).length := by
  by_cases h : (extract_all_vulnerabilities scan_results).isEmpty
  · have he : extract_all_vulnerabilities scan_results = [] := by
      simpa using h
    simp [process_scan_results, h, he, calculate_summary_statistics]
  · simp [process_scan_results, h, summary_total_vulnerabilities,
      generate_all_risk_tickets_length, map_all_vulnerabilities,
      sort_vulnerabilities_by_severity, stableSortDesc_length]

/-- Claim C9: a missing or malformed rule-configuration file falls back to
the default rule set (empty path rules, empty keyword rules, all three
tier flags enabled) without raising; under it Tiers 1 and 2 return no
result for every vulnerability, and the pipeline still completes with a
well-formed result (as many tickets as extracted vulnerabilities). -/
theorem C9_default_rules_fallback :
    load_rules .fileNotFound = default_rules ∧
    load_rules .parseError = default_rules ∧
    default_rules.path_rules.rules = some [] ∧
    default_rules.keyword_rules.mappings.getD
      (default_rules.keyword_rules.rules.getD []) = [] ∧
    default_rules.tier_config.use_hard_path_rules.getD
      (default_rules.tier_config.use_hard_rules.getD true) = true ∧
    default_rules.tier_config.use_keyword_matching.getD true = true ∧
    default_rules.tier_config.use_ai_fallback.getD true = true ∧
    (∀ (find : AssetFinder) (vulnerability : Vuln) (assets : List Asset),
      map_with_hard_rules default_rules find vulnerability assets = none) ∧
    (∀ (find : AssetFinder) (vulnerability : Vuln) (assets : List Asset),
      map_with_keywords default_rules find vulnerability assets = none) ∧
    (∀ (find : AssetFinder) (ai : AiOracle) (assets : List Asset)
        (fp : FinancialParams) (scan_results : List (String × ToolResult)),
      (process_scan_results default_rules find ai assets fp
          scan_results).summary.total_vulnerabilities =
        (extract_all_vulnerabilities scan_results).length ∧
      (process_scan_results default_rules find ai assets fp
          scan_results).risk_tickets.length =
        (extract_all_vulnerabilities scan_results).length) := by
  refine ⟨rfl, rfl, rfl, rfl, rfl, rfl, rfl, ?_, ?_, ?_⟩
  · intro find vulnerability assets
    simp [map_with_hard_rules, default_rules, flattenPathRules,
      firstPathRuleMatch]
  · intro find vulnerability assets
    simp [map_with_keywords, default_rules, positiveScores]
  · intro find ai assets fp scan_results
    exact process_scan_results_counts default_rules find ai assets fp scan_results

/-- Claim C8: a scan-results input whose flattened essential-findings list
is empty short-circuits to a well-formed zero result: zero-valued summary,
empty ticket list, zero processed and mapped counts, no exception. -/
theorem C8_empty_scan (rules : MapperRules) (find : AssetFinder)
    (ai : AiOracle) (assets : List Asset) (fp : FinancialParams)
    (scan_results : List (String × ToolResult))
    (h : extract_all_vulnerabilities scan_results = []) :
    process_scan_results rules find ai assets fp scan_results =
      { summary :=
          { total_vulnerabilities := 0
            total_financial_exposure := 0
            severity_breakdown := []
            total_fix_cost := 0
            total_rosi := some 0
            average_rosi := none
            net_benefit := none
            critical_count := 0
            high_count := 0
            medium_count := 0
            low_count := 0 }
        risk_tickets := []
        vulnerabilities_processed := 0
        assets_mapped := 0
        enriched_vulnerabilities := none } := by
  simp [process_scan_results, h, calculate_summary_statistics]

/-- Witness for C8: a scan result with one tool reporting an empty
essential list and one tool with no essential list at all. -/
theorem C8_empty_scan_witness :
    process_scan_results default_rules (fun _ _ => none) (fun _ _ => none) []
      { default_hourly_cost := none, default_rto_hours := none, has_pii_data := none }
      [("bandit", { essential := some [] }), ("safety", { essential := none })] =
      { summary :=
          { total_vulnerabilities := 0
            total_financial_exposure := 0
            severity_breakdown := []
            total_fix_cost := 0
            total_rosi := some 0
            average_rosi := none
            net_benefit := none
            critical_count := 0
            high_count := 0
            medium_count := 0
            low_count := 0 }
        risk_tickets := []
        vulnerabilities_processed := 0
        assets_mapped := 0
        enriched_vulnerabilities := none } := by
  exact C8_empty_scan _ _ _ _ _ _ (by decide)

/-- Claim C10: the empty-ticket summary and the non-empty summary expose
different key sets — the empty one has `total_rosi = 0` but neither
`average_rosi` nor `net_benefit`; the non-empty one has `average_rosi` and
`net_benefit` (the latter equal to `round(total_exposure - total_fix_cost, 2)`)
but no `total_rosi` key. -/
theorem C10_summary_key_sets :
    ((calculate_summary_statistics []).total_rosi = some 0 ∧
     (calculate_summary_statistics []).average_rosi = none ∧
     (calculate_summary_statistics []).net_benefit = none) ∧
    (∀ (t : Ticket) (ts : List Ticket),
      (calculate_summary_statistics (t :: ts)).total_rosi = none ∧
      (calculate_summary_statistics (t :: ts)).average_rosi =
        some (round2
          (((t :: ts).map (fun u => u.rosi.rosi_percentage)).sum /
            ((t :: ts).length : ℚ))) ∧
      (calculate_summary_statistics (t :: ts)).net_benefit =
        some (round2
          (((t :: ts).map (fun u => u.financial_exposure.total)).sum -
            ((t :: ts).map (fun u => u.rosi.fix_cost)).sum))) := by
  exact ⟨⟨rfl, rfl, rfl⟩, fun t ts => ⟨rfl, rfl, rfl⟩⟩

/-- Claim C7 (amended): ticket generation uses the asset-extracted RTO —
and the asset-extracted hourly cost — to compute the direct loss whenever
that RTO differs from 24; when the financial context's RTO equals the
default 24 (whether defaulted or asset-extracted), the
severity/criticality RTO estimate is used instead. -/
theorem C7_rto_preference (vulnerability : Vuln) (mapped : MappedAsset)
    (fp : FinancialParams) (n : Nat) (r : ℚ) :
    (mapped.asset.extracted_rto_hours = some r → r ≠ 24 →
      (generate_risk_ticket n
        (enrich_vulnerability_with_asset vulnerability (some mapped) fp)
        (enrich_vulnerability_with_asset vulnerability (some mapped) fp)
        ).financial_exposure.direct_loss =
        round2 (calculate_direct_loss
          (mapped.asset.extracted_hourly_cost.getD (fp.default_hourly_cost.getD 10000))
          r)) ∧
    ((enrich_vulnerability_with_asset vulnerability (some mapped)
        fp).financial_context.rto_hours = 24 →
      (generate_risk_ticket n
        (enrich_vulnerability_with_asset vulnerability (some mapped) fp)
        (enrich_vulnerability_with_asset vulnerability (some mapped) fp)
        ).financial_exposure.direct_loss =
        round2 (calculate_direct_loss
          (mapped.asset.extracted_hourly_cost.getD (fp.default_hourly_cost.getD 10000))
          (estimate_rto_from_severity (vulnerability.severity.getD "UNKNOWN")
            "medium"))) := by
  constructor
  · intro h hne
    simp [generate_risk_ticket, enrich_vulnerability_with_asset, h, hne,
      calculate_total_impact, calculate_direct_loss]
  · intro h24
    simp only [enrich_vulnerability_with_asset] at h24 ⊢
    simp [generate_risk_ticket, h24, calculate_total_impact, calculate_direct_loss]

/-- Witness for the amended C7 at the spec's end-to-end numbers: an asset
supplying `hourly_cost = 50000` and `rto_hours = 4` yields a direct loss of
`50000 × 4`. -/
theorem C7_rto_preference_witness :
    (generate_risk_ticket 1
      (enrich_vulnerability_with_asset
        { file := some "services/payments/charge.py", package := none,
          message := none, description := none, severity := some "CRITICAL",
          source_tool := none }
        (some { asset := { filename := some "inventory",
                           extracted_asset_name := some "Payment Gateway",
                           extracted_hourly_cost := some 50000,
                           extracted_rto_hours := some 4 }
                mapping_confidence := 100
                mapping_tier := "hard_rules" })
        { default_hourly_cost := none, default_rto_hours := none,
          has_pii_data := none })
      (enrich_vulnerability_with_asset
        { file := some "services/payments/charge.py", package := none,
          message := none, description := none, severity := some "CRITICAL",
          source_tool := none }
        (some { asset := { filename := some "inventory",
                           extracted_asset_name := some "Payment Gateway",
                           extracted_hourly_cost := some 50000,
                           extracted_rto_hours := some 4 }
                mapping_confidence := 100
                mapping_tier := "hard_rules" })
        { default_hourly_cost := none, default_rto_hours := none,
          has_pii_data := none })).financial_exposure.direct_loss =
      round2 (calculate_direct_loss 50000 4) := by
  exact (C7_rto_preference _ _ _ 1 4).1 rfl (by norm_num)

/-- Counterexample to C7 as stated: an asset that explicitly supplies
`rto_hours = 24` (with `hourly_cost = 10000`) for a LOW-severity finding.
The extracted RTO reaches the financial context, yet the generated
ticket's direct loss is `10000 × 720` (the severity/criticality estimate
for LOW at medium criticality), not `10000 × 24`. -/
theorem C7_counterexample :
    (enrich_vulnerability_with_asset
      { file := none, package := none, message := none, description := none,
        severity := some "LOW", source_tool := none }
      (some { asset := { filename := some "inventory",
                         extracted_asset_name := some "Payroll",
                         extracted_hourly_cost := some 10000,
                         extracted_rto_hours := some 24 }
              mapping_confidence := 100
              mapping_tier := "hard_rules" })
      { default_hourly_cost := none, default_rto_hours := none,
        has_pii_data := none }).financial_context.rto_hours = 24 ∧
    (generate_risk_ticket 1
      (enrich_vulnerability_with_asset
        { file := none, package := none, message := none, description := none,
          severity := some "LOW", source_tool := none }
        (some { asset := { filename := some "inventory",
                           extracted_asset_name := some "Payroll",
                           extracted_hourly_cost := some 10000,
                           extracted_rto_hours := some 24 }
                mapping_confidence := 100
                mapping_tier := "hard_rules" })
        { default_hourly_cost := none, default_rto_hours := none,
          has_pii_data := none })
      (enrich_vulnerability_with_asset
        { file := none, package := none, message := none, description := none,
          severity := some "LOW", source_tool := none }
        (some { asset := { filename := some "inventory",
                           extracted_asset_name := some "Payroll",
                           extracted_hourly_cost := some 10000,
                           extracted_rto_hours := some 24 }
                mapping_confidence := 100
                mapping_tier := "hard_rules" })
        { default_hourly_cost := none, default_rto_hours := none,
          has_pii_data := none })).financial_exposure.direct_loss = 7200000 ∧
    round2 (calculate_direct_loss 10000 24) = 240000 ∧
    (7200000 : ℚ) ≠ 240000 := by
  have hw : get_severity_weight "LOW" = 2 := by decide
  have hlow : pyLower "medium" = "medium" := by decide
  have hc : ¬ ("medium" = "critical") := by decide
  have hh : ¬ ("medium" = "high") := by decide
  have hrto : estimate_rto_from_severity "LOW" "medium" = 720 := by
    norm_num [estimate_rto_from_severity, hw, hlow, SeverityLevel.value, hc, hh]
  refine ⟨rfl, ?_, ?_, by norm_num⟩
  · simp only [enrich_vulnerability_with_asset, generate_risk_ticket,
      Option.getD_some]
    norm_num [hrto, calculate_total_impact, calculate_direct_loss, round2,
      pyRoundHalfEven]
  · norm_num [calculate_direct_loss, round2, pyRoundHalfEven]

theorem positiveScores_pos (keyword_mappings : List (String × List String))
    (vuln_text : String) :
    ∀ q ∈ positiveScores keyword_mappings vuln_text, 0 < q.2 := by
  intro q hq
  exact of_decide_eq_true (List.mem_filter.mp hq).2

/-- Function `pickBest` returns the first entry attaining the maximal score: the
input splits around it, everything before it scores strictly less, and
nothing scores more. -/
theorem pickBest_spec (s : String × Nat) (rest : List (String × Nat)) :
    ∃ pre post,
      s :: rest = pre ++ pickBest s rest :: post ∧
      (∀ q ∈ pre, q.2 < (pickBest s rest).2) ∧
      (∀ q ∈ s :: rest, q.2 ≤ (pickBest s rest).2) := by
  induction rest generalizing s with
  | nil =>
    refine ⟨[], [], by simp [pickBest], by simp, ?_⟩
    intro q hq
    have : q = s := by simpa using hq
    simp [this, pickBest]
  | cons r rest ih =>
    by_cases h : s.2 < r.2
    · obtain ⟨pre, post, hdec, hpre, hmax⟩ := ih r
      have hpb : pickBest s (r :: rest) = pickBest r rest := by
        simp [pickBest, h]
      rw [hpb]
      have hrb : r.2 ≤ (pickBest r rest).2 := hmax r (List.mem_cons_self r rest)
      refine ⟨s :: pre, post, ?_, ?_, ?_⟩
      · simpa using congrArg (List.cons s) hdec
      · intro q hq
        rcases List.mem_cons.mp hq with rfl | hq'
        · exact lt_of_lt_of_le h hrb
        · exact hpre q hq'
      · intro q hq
        rcases List.mem_cons.mp hq with rfl | hq'
        · exact le_of_lt (lt_of_lt_of_le h hrb)
        · exact hmax q hq'
    · obtain ⟨pre, post, hdec, hpre, hmax⟩ := ih s
      have hpb : pickBest s (r :: rest) = pickBest s rest := by
        simp [pickBest, h]
      rw [hpb]
      cases pre with
      | nil =>
        simp only [List.nil_append] at hdec
        injection hdec with h1 h2
        refine ⟨[], r :: rest, by rw [← h1]; simp, by simp, ?_⟩
        intro q hq
        rcases List.mem_cons.mp hq with rfl | hq'
        · rw [← h1]
        · rcases List.mem_cons.mp hq' with rfl | hq''
          · rw [← h1]
            exact le_of_not_lt h
          · exact hmax q (List.mem_cons_of_mem s hq'')
      | cons p pre' =>
        rw [List.cons_append] at hdec
        injection hdec with h1 h2
        have hsb : s.2 < (pickBest s rest).2 := by
          have hp := hpre p (List.mem_cons_self p pre')
          rwa [← h1] at hp
        refine ⟨s :: r :: pre', post, ?_, ?_, ?_⟩
        · show s :: r :: rest = s :: r :: (pre' ++ pickBest s rest :: post)
          rw [← h2]
        · intro q hq
          rcases List.mem_cons.mp hq with rfl | hq'
          · exact hsb
          · rcases List.mem_cons.mp hq' with rfl | hq''
            · exact lt_of_le_of_lt (le_of_not_lt h) hsb
            · exact hpre q (List.mem_cons_of_mem p hq'')
        · intro q hq
          rcases List.mem_cons.mp hq with rfl | hq'
          · exact le_of_lt hsb
          · rcases List.mem_cons.mp hq' with rfl | hq''
            · exact le_of_lt (lt_of_le_of_lt (le_of_not_lt h) hsb)
            · exact hmax q (List.mem_cons_of_mem s hq'')

/-- Claim C5: Tier 2 scores each configured asset id by the number of its
keywords occurring case-insensitively in the concatenated vulnerability
text; the first-seen asset id with the strictly highest positive score
wins with confidence `min (60 + 10 * matchCount) 90`; empty search text,
no positive score, or an unresolvable winning asset id all yield no
result rather than an error. -/
theorem C5_keyword_tier (rules : MapperRules) (find : AssetFinder)
    (vulnerability : Vuln) (assets : List Asset) :
    (pyStrip (vulnSearchText vulnerability) = "" →
      map_with_keywords rules find vulnerability assets = none) ∧
    (positiveScores
        (rules.keyword_rules.mappings.getD (rules.keyword_rules.rules.getD []))
        (vulnSearchText vulnerability) = [] →
      map_with_keywords rules find vulnerability assets = none) ∧
    (∀ s rest,
      positiveScores
          (rules.keyword_rules.mappings.getD (rules.keyword_rules.rules.getD []))
          (vulnSearchText vulnerability) = s :: rest →
      find (pickBest s rest).1 assets = none →
      map_with_keywords rules find vulnerability assets = none) ∧
    (∀ a md, map_with_keywords rules find vulnerability assets = some (a, md) →
      ∃ pre best post,
        positiveScores
            (rules.keyword_rules.mappings.getD (rules.keyword_rules.rules.getD []))
            (vulnSearchText vulnerability) = pre ++ best :: post ∧
        0 < best.2 ∧
        (∀ q ∈ pre, q.2 < best.2) ∧
        (∀ q ∈ positiveScores
            (rules.keyword_rules.mappings.getD (rules.keyword_rules.rules.getD []))
            (vulnSearchText vulnerability), q.2 ≤ best.2) ∧
        find best.1 assets = some a ∧
        md = { tier := "keywords", confidence := min (60 + best.2 * 10) 90,
               asset_id := best.1 }) := by
  refine ⟨?_, ?_, ?_, ?_⟩
  · intro h
    by_cases hf : rules.tier_config.use_keyword_matching.getD true <;>
      simp [map_with_keywords, hf, h]
  · intro h
    by_cases hf : rules.tier_config.use_keyword_matching.getD true <;>
      by_cases ht : pyStrip (vulnSearchText vulnerability) = "" <;>
        simp [map_with_keywords, hf, ht, h]
  · intro s rest hps hfind
    by_cases hf : rules.tier_config.use_keyword_matching.getD true <;>
      by_cases ht : pyStrip (vulnSearchText vulnerability) = "" <;>
        simp [map_with_keywords, hf, ht, hps, hfind]
  · intro a md hsome
    by_cases hf : rules.tier_config.use_keyword_matching.getD true
    case neg => simp [map_with_keywords, hf] at hsome
    case pos =>
    by_cases ht : pyStrip (vulnSearchText vulnerability) = ""
    case pos => simp [map_with_keywords, hf, ht] at hsome
    case neg =>
    cases hps : positiveScores
        (rules.keyword_rules.mappings.getD (rules.keyword_rules.rules.getD []))
        (vulnSearchText vulnerability) with
    | nil => simp [map_with_keywords, hf, ht, hps] at hsome
    | cons s rest =>
      cases hfind : find (pickBest s rest).1 assets with
      | none => simp [map_with_keywords, hf, ht, hps, hfind] at hsome
      | some a' =>
        simp only [map_with_keywords, hf, ht, hps, hfind, Bool.not_true,
          Bool.false_eq_true, if_false, if_neg, Option.some.injEq] at hsome
        obtain ⟨pre, post, hdec, hpre, hmax⟩ := pickBest_spec s rest
        have hmem : pickBest s rest ∈ s :: rest := by
          rw [hdec]
          exact List.mem_append_right pre (List.mem_cons_self _ _)
        have hpos : 0 < (pickBest s rest).2 := by
          apply positiveScores_pos
            (rules.keyword_rules.mappings.getD (rules.keyword_rules.rules.getD []))
            (vulnSearchText vulnerability)
          rw [hps]
          exact hmem
        injection hsome with ha hmd
        refine ⟨pre, pickBest s rest, post, hdec, hpos, hpre, ?_, ?_, hmd.symm⟩
        · intro q hq
          exact hmax q hq
        · rw [← ha]
          exact hfind

/-- Witness for C5: two configured asset ids score 2 and 1 against a
concrete vulnerability text, and a resolver that fails on the winning id
makes Tier 2 return no result. -/
theorem C5_keyword_tier_witness :
    map_with_keywords
      { path_rules := { rules := some [] }
        keyword_rules :=
          { mappings := some [("A-1", ["alpha", "beta"]), ("B-2", ["beta"])]
            rules := some [] }
        tier_config := { use_hard_path_rules := none, use_hard_rules := none,
                         use_keyword_matching := some true,
                         use_ai_fallback := some true } }
      (fun _ _ => none)
      { file := none, package := none, message := some "alpha beta issue",
        description := none, severity := some "HIGH", source_tool := none }
      [] = none := by
  exact (C5_keyword_tier _ _ _ _).2.2.1 ("A-1", 2) [("B-2", 1)] (by decide) rfl

/-! ## Stable descending sort: permutation and sortedness -/

theorem insertDescBy_perm (ge : α → α → Bool) (x : α) (l : List α) :
    (insertDescBy ge x l).Perm (x :: l) := by
  induction l with
  | nil => exact List.Perm.refl _
  | cons y ys ih =>
    by_cases h : ge x y = true
    · simp [insertDescBy, h]
    · simp only [insertDescBy, h, if_false, Bool.false_eq_true]
      exact (ih.cons y).trans (List.Perm.swap x y ys)

theorem stableSortDesc_perm (ge : α → α → Bool) (l : List α) :
    (stableSortDesc ge l).Perm l := by
  induction l with
  | nil => exact List.Perm.refl _
  | cons x xs ih => exact (insertDescBy_perm ge x _).trans (ih.cons x)

theorem insertDescBy_pairwise (ge : α → α → Bool)
    (htotal : ∀ a b, ge a b = false → ge b a = true)
    (htrans : ∀ a b c, ge a b = true → ge b c = true → ge a c = true)
    (x : α) : ∀ l : List α, l.Pairwise (fun a b => ge a b = true) →
    (insertDescBy ge x l).Pairwise (fun a b => ge a b = true) := by
  intro l
  induction l with
  | nil =>
    intro _
    simp [insertDescBy]
  | cons y ys ih =>
    intro hl
    rcases List.pairwise_cons.mp hl with ⟨hy, hys⟩
    by_cases h : ge x y = true
    · simp only [insertDescBy, h, if_true]
      refine List.pairwise_cons.mpr ⟨?_, hl⟩
      intro z hz
      rcases List.mem_cons.mp hz with rfl | hz'
      · exact h
      · exact htrans x y z h (hy z hz')
    · simp only [insertDescBy, h, if_false, Bool.false_eq_true]
      refine List.pairwise_cons.mpr ⟨?_, ih hys⟩
      intro z hz
      have hz' : z ∈ x :: ys := (insertDescBy_perm ge x ys).mem_iff.mp hz
      rcases List.mem_cons.mp hz' with heq | hz''
      · rw [heq]
        exact htotal x y (by simpa using h)
      · exact hy z hz''

theorem stableSortDesc_pairwise (ge : α → α → Bool)
    (htotal : ∀ a b, ge a b = false → ge b a = true)
    (htrans : ∀ a b c, ge a b = true → ge b c = true → ge a c = true)
    (l : List α) :
    (stableSortDesc ge l).Pairwise (fun a b => ge a b = true) := by
  induction l with
  | nil => simp [stableSortDesc]
  | cons x xs ih => exact insertDescBy_pairwise ge htotal htrans x _ ih

theorem ticketSortGe_iff (a b : Ticket) :
    ticketSortGe a b = true ↔
      (b.severity_weight < a.severity_weight ∨
        (a.severity_weight = b.severity_weight ∧
          b.financial_exposure.total ≤ a.financial_exposure.total)) := by
  simp [ticketSortGe]

theorem ticketSortGe_total (a b : Ticket) (h : ticketSortGe a b = false) :
    ticketSortGe b a = true := by
  have hn : ¬ (ticketSortGe a b = true) := by simp [h]
  rw [ticketSortGe_iff] at hn
  push_neg at hn
  obtain ⟨h1, h2⟩ := hn
  rw [ticketSortGe_iff]
  rcases lt_or_eq_of_le h1 with hlt | heq
  · exact Or.inl hlt
  · exact Or.inr ⟨heq.symm, le_of_lt (h2 heq)⟩

theorem ticketSortGe_trans (a b c : Ticket) (h1 : ticketSortGe a b = true)
    (h2 : ticketSortGe b c = true) : ticketSortGe a c = true := by
  rw [ticketSortGe_iff] at h1 h2 ⊢
  rcases h1 with h1 | ⟨e1, t1⟩
  · rcases h2 with h2 | ⟨e2, t2⟩
    · exact Or.inl (h2.trans h1)
    · exact Or.inl (by rw [← e2]; exact h1)
  · rcases h2 with h2 | ⟨e2, t2⟩
    · exact Or.inl (by rw [e1]; exact h2)
    · exact Or.inr ⟨e1.trans e2, t2.trans t1⟩

/-- Forgetting the (reassigned) ticket number. -/
def eraseTicketNumber (t : Ticket) : Ticket := { t with ticket_number := 0 }

theorem renumberFrom_map_erase (n : Nat) (ts : List Ticket) :
    (renumberFrom n ts).map eraseTicketNumber = ts.map eraseTicketNumber := by
  induction ts generalizing n with
  | nil => rfl
  | cons t ts ih => simp [renumberFrom, eraseTicketNumber, ih]

theorem mem_renumberFrom (b : Ticket) (n : Nat) (ts : List Ticket)
    (hb : b ∈ renumberFrom n ts) :
    ∃ b' ∈ ts, ∃ m, b = { b' with ticket_number := m } := by
  induction ts generalizing n with
  | nil => simp [renumberFrom] at hb
  | cons t ts ih =>
    rcases List.mem_cons.mp hb with rfl | hb'
    · exact ⟨t, List.mem_cons_self t ts, n, rfl⟩
    · obtain ⟨b', hb'', m, he⟩ := ih (n + 1) hb'
      exact ⟨b', List.mem_cons_of_mem t hb'', m, he⟩

theorem pairwise_ge_renumberFrom (n : Nat) (ts : List Ticket)
    (h : ts.Pairwise (fun a b => ticketSortGe a b = true)) :
    (renumberFrom n ts).Pairwise (fun a b => ticketSortGe a b = true) := by
  induction ts generalizing n with
  | nil => simp [renumberFrom]
  | cons t ts ih =>
    rcases List.pairwise_cons.mp h with ⟨ht, hts⟩
    refine List.pairwise_cons.mpr ⟨?_, ih (n + 1) hts⟩
    intro b hb
    obtain ⟨b', hb'', m, he⟩ := mem_renumberFrom b (n + 1) ts hb
    rw [he]
    exact ht b' hb''

theorem renumberFrom_get (n : Nat) (ts : List Ticket) (i : Nat)
    (h : i < (renumberFrom n ts).length) :
    ((renumberFrom n ts).get ⟨i, h⟩).ticket_number = n + i := by
  induction ts generalizing n i with
  | nil => simp [renumberFrom] at h
  | cons t ts ih =>
    cases i with
    | zero => rfl
    | succ i =>
      have h' : i < (renumberFrom (n + 1) ts).length := by
        simp only [renumberFrom, List.length_cons] at h
        omega
      have hstep :
          ((renumberFrom n (t :: ts)).get ⟨i + 1, h⟩).ticket_number =
            ((renumberFrom (n + 1) ts).get ⟨i, h'⟩).ticket_number := rfl
      rw [hstep, ih (n + 1) i h']
      omega

/-- Claim C6: `generate_all_risk_tickets` returns (up to the renumbering of
`ticket_number`) a permutation of the generated tickets, sorted descending
by `(severity_weight, financial_exposure.total)`, and the ticket at
0-based position `i` carries `ticket_number = i + 1`. -/
theorem C6_ticket_ordering (enriched_vulnerabilities : List EnrichedVuln) :
    ((generate_all_risk_tickets enriched_vulnerabilities).map
        eraseTicketNumber).Perm
      ((ticketsFrom 1 enriched_vulnerabilities).map eraseTicketNumber) ∧
    (generate_all_risk_tickets enriched_vulnerabilities).Pairwise
      (fun a b => ticketSortGe a b = true) ∧
    (generate_all_risk_tickets enriched_vulnerabilities).length =
      enriched_vulnerabilities.length ∧
    (∀ i (h : i < (generate_all_risk_tickets enriched_vulnerabilities).length),
      ((generate_all_risk_tickets enriched_vulnerabilities).get
        ⟨i, h⟩).ticket_number = i + 1) := by
  refine ⟨?_, ?_, generate_all_risk_tickets_length _, ?_⟩
  · simp only [generate_all_risk_tickets]
    rw [renumberFrom_map_erase]
    exact (stableSortDesc_perm ticketSortGe
      (ticketsFrom 1 enriched_vulnerabilities)).map eraseTicketNumber
  · simp only [generate_all_risk_tickets]
    exact pairwise_ge_renumberFrom 1 _
      (stableSortDesc_pairwise ticketSortGe ticketSortGe_total
        ticketSortGe_trans _)
  · intro i h
    exact (renumberFrom_get 1
      (stableSortDesc ticketSortGe (ticketsFrom 1 enriched_vulnerabilities))
      i h).trans (Nat.add_comm 1 i)

/-- Witness for C6 on a two-element input. -/
theorem C6_ticket_ordering_witness :
    ((generate_all_risk_tickets
      [{ vuln := { file := none, package := none, message := none,
                   description := none, severity := some "LOW",
                   source_tool := none }
         matched_asset := none
         financial_context := { hourly_cost := 10000, rto_hours := 24,
                                has_pii_data := false,
                                asset_criticality := "low" } },
       { vuln := { file := none, package := none, message := none,
                   description := none, severity := some "CRITICAL",
                   source_tool := none }
         matched_asset := none
         financial_context := { hourly_cost := 10000, rto_hours := 24,
                                has_pii_data := false,
                                asset_criticality := "low" } }]).get
      ⟨0, by simp [generate_all_risk_tickets_length]⟩).ticket_number = 0 + 1 ∧
    ((generate_all_risk_tickets
      [{ vuln := { file := none, package := none, message := none,
                   description := none, severity := some "LOW",
                   source_tool := none }
         matched_asset := none
         financial_context := { hourly_cost := 10000, rto_hours := 24,
                                has_pii_data := false,
                                asset_criticality := "low" } },
       { vuln := { file := none, package := none, message := none,
                   description := none, severity := some "CRITICAL",
                   source_tool := none }
         matched_asset := none
         financial_context := { hourly_cost := 10000, rto_hours := 24,
                                has_pii_data := false,
                                asset_criticality := "low" } }]).get
      ⟨1, by simp [generate_all_risk_tickets_length]⟩).ticket_number = 1 + 1 := by
  exact ⟨(C6_ticket_ordering _).2.2.2 0 _, (C6_ticket_ordering _).2.2.2 1 _⟩
